import Mathlib

/-!
Verification of the coinbase-rs core: the authenticated-request signing
subsystem (`src/request.rs`) and the response-decoding / pagination logic
(`src/private.rs`, with the pagination driver `Public::get_stream` of
`src/public.rs` modelled from the spec, as that file is not in the tree).

Shallow embedding conventions:
* HTTP methods are their `as_str()` strings.
* `http::Uri` is modelled by its observable pieces used in the source:
  an optional host and `path_and_query`.
* `HashMap<String, String>` headers are association lists whose `insert`
  removes any previous binding of the key (HashMap replace semantics).
* The external crypto / serde libraries (`elliptic_curve`,
  `jwt_simple`, `serde_json`) are parameters (`CryptoEnv`, `SerdeEnv`):
  each library call site in the source becomes a call to the
  corresponding environment field.
* Effects of the source (system clock, RNG nonce) are explicit
  parameters `now` and `nonce`.
* A Rust `panic!` / `.unwrap()` on `None` is modelled by `Except.error`
  with a `PanicKind` tag; a function that cannot panic is total.
-/

/-- HTTP method, identified with its `as_str()` form (`"GET"`, `"POST"`, ...). -/
abbrev Method := String

/-- Observable pieces of `http::Uri` used by the source: `host()` and
`path_and_query()`. The default URI `"/"` has no host. -/
structure Uri where
  host : Option String
  path : String
  query : Option String
deriving Repr, DecidableEq

/-- The string rendering of `uri.path_and_query()`: path, then `?query` when present. -/
def Uri.path_and_query (u : Uri) : String :=
  u.path ++ (match u.query with
    | some q => "?" ++ q
    | none => "")

/-- The URI `"/"` that `Builder::new` parses: no host, path `/`, no query. -/
def Uri.root : Uri :=
  { host := none, path := "/", query := none }

/-- Header map: association list standing for `HashMap<String, String>`. -/
abbrev Headers := List (String × String)

/-- Lookup of a header value by key. -/
def getHeader : Headers → String → Option String
  | [], _ => none
  | p :: hs, k => if p.1 = k then some p.2 else getHeader hs k

/-- `HashMap::insert` semantics: any previous binding of the key is replaced. -/
def insertHeader : Headers → String → String → Headers
  | [], k, v => [(k, v)]
  | p :: hs, k, v => if p.1 = k then insertHeader hs k v else p :: insertHeader hs k v

/-- The custom JWT payload of `request.rs`: a single `uri` claim. -/
structure Payload where
  uri : String
deriving Repr, DecidableEq

/-- The claim set assembled by `jwt_simple`: registered claims used by the
source (`issued_at`, `expires_at` in seconds, issuer, subject, nonce) plus
the custom `Payload`. -/
structure Claims where
  issued_at : Nat
  expires_at : Nat
  issuer : Option String
  subject : Option String
  nonce : Option String
  custom : Payload
deriving Repr, DecidableEq

/-- `jwt_simple::claims::Claims::with_custom_claims payload valid_for` at
clock time `now`: issue time `now`, expiry `now + valid_for`, no issuer,
subject or nonce yet. -/
def Claims.with_custom_claims (payload : Payload) (valid_for : Nat) (now : Nat) : Claims :=
  { issued_at := now, expires_at := now + valid_for,
    issuer := none, subject := none, nonce := none, custom := payload }

/-- `Claims::with_issuer`. -/
def Claims.with_issuer (c : Claims) (iss : String) : Claims :=
  { c with issuer := some iss }

/-- `Claims::with_subject`. -/
def Claims.with_subject (c : Claims) (sub : String) : Claims :=
  { c with subject := some sub }

/-- `Claims::create_nonce`: installs the freshly drawn random value, which
the embedding receives as the explicit parameter `nonce`. -/
def Claims.create_nonce (c : Claims) (nonce : String) : Claims :=
  { c with nonce := some nonce }

/-- `jwt_simple::prelude::ES256KeyPair`: the raw P-256 scalar bytes it was
built from and the optional key id attached by `with_key_id`. -/
structure ES256KeyPair where
  key : List Nat
  key_id : Option String
deriving Repr, DecidableEq

/-- `ES256KeyPair::with_key_id`. -/
def ES256KeyPair.with_key_id (kp : ES256KeyPair) (kid : String) : ES256KeyPair :=
  { kp with key_id := some kid }

/-- JOSE header of the signed token: algorithm and optional key id. -/
structure JwtHeader where
  alg : String
  kid : Option String
deriving Repr, DecidableEq

/-- A signed token before compact serialization: header, claims, signature bytes. -/
structure Jwt where
  header : JwtHeader
  claims : Claims
  signature : List Nat
deriving Repr, DecidableEq

/-- Behaviour of the external crypto libraries at the call sites of
`Builder::token`; each field models one library function the source calls. -/
structure CryptoEnv where
  fromSec1Pem : String → Except String (List Nat)
  es256FromBytesOk : List Nat → Except String Unit
  signRaw : List Nat → Claims → Except String (List Nat)
  compact : Jwt → String

/-- `elliptic_curve::SecretKey::<p256::NistP256>::from_sec1_pem` followed by
`to_bytes`: the scalar bytes of the parsed key, or a parse error. -/
def CryptoEnv.loadSecretKeyBytes (env : CryptoEnv) (secret : String) : Except String (List Nat) :=
  env.fromSec1Pem secret

/-- `ES256KeyPair::from_bytes`: a key pair (no key id yet) retaining the
scalar bytes, or a derivation error. -/
def CryptoEnv.es256FromBytes (env : CryptoEnv) (bytes : List Nat) : Except String ES256KeyPair :=
  match env.es256FromBytesOk bytes with
  | Except.ok _ => Except.ok { key := bytes, key_id := none }
  | Except.error e => Except.error e

/-- `ES256KeyPair::sign claims`: signs over the pair's key material and, on
success, yields the token whose header records `ES256` and the pair's key id
and whose payload is exactly the claim set that was signed. -/
def CryptoEnv.sign (env : CryptoEnv) (kp : ES256KeyPair) (claims : Claims) : Except String Jwt :=
  match env.signRaw kp.key claims with
  | Except.ok sig =>
      Except.ok { header := { alg := "ES256", kid := kp.key_id }, claims := claims, signature := sig }
  | Except.error e => Except.error e

/-- The stage of `Builder::token` at which the pipeline failed, matching the
three early-return branches of the source. -/
inductive TokenFailure where
  | keyLoad (msg : String)
  | keyPair (msg : String)
  | signingFailed (msg : String)
deriving Repr, DecidableEq

/-- Structured result of `Builder::token` before compact serialization: the
pipeline of `request.rs` lines 124-157 (load PEM key, derive ES256 pair,
attach key id, build claims, install nonce, sign), with each failure tagged
by its stage. -/
def tokenJwt (env : CryptoEnv) (now : Nat) (nonce : String)
    (key_name secret : String) (method : Method) (path : String) : Except TokenFailure Jwt :=
  match env.loadSecretKeyBytes secret with
  | Except.error e => Except.error (TokenFailure.keyLoad e)
  | Except.ok bytes =>
    match env.es256FromBytes bytes with
    | Except.error e => Except.error (TokenFailure.keyPair e)
    | Except.ok kp =>
      let kp := kp.with_key_id key_name
      let payload : Payload := { uri := method ++ " " ++ path }
      let claims :=
        (((Claims.with_custom_claims payload 120 now).with_issuer "cdp").with_subject
          key_name).create_nonce nonce
      match env.sign kp claims with
      | Except.error e => Except.error (TokenFailure.signingFailed e)
      | Except.ok jwt => Except.ok jwt

/-- `Builder::token`: the string the source returns — the compact token on
success and the empty string `String::default()` on any failure. -/
def token (env : CryptoEnv) (now : Nat) (nonce : String)
    (key_name secret : String) (method : Method) (path : String) : String :=
  match tokenJwt env now nonce key_name secret method path with
  | Except.ok jwt => env.compact jwt
  | Except.error _ => ""

/-- `concat!("coinbase-rs/", env!("CARGO_PKG_VERSION"))`; the crate version
string is not in the sources, so a fixed representative is used — no claim
depends on its exact value, only on it being the fixed injected value. -/
def USER_AGENT : String := "coinbase-rs/0.6.0"

/-- `request::Parts`: method, URI, protocol version (opaque), headers. -/
structure Parts where
  method : Method
  uri : Uri
  version : Nat
  headers : Headers
deriving Repr, DecidableEq

/-- `request::Builder`: optional credentials, parts, body bytes. -/
structure Builder where
  auth : Option (String × String)
  parts : Parts
  body : List Nat
deriving Repr, DecidableEq

/-- `Builder::new`. -/
def Builder.new : Builder :=
  { auth := none,
    parts := { method := "GET", uri := Uri.root, version := 11, headers := [] },
    body := [] }

/-- `Builder::new_with_auth`. -/
def Builder.new_with_auth (key secret : String) : Builder :=
  { auth := some (key, secret),
    parts := { method := "GET", uri := Uri.root, version := 11, headers := [] },
    body := [] }

/-- `Builder::method`. -/
def Builder.method (b : Builder) (m : Method) : Builder :=
  { b with parts := { b.parts with method := m } }

/-- `Builder::uri`. -/
def Builder.uri (b : Builder) (u : Uri) : Builder :=
  { b with parts := { b.parts with uri := u } }

/-- `Builder::version`. -/
def Builder.version (b : Builder) (v : Nat) : Builder :=
  { b with parts := { b.parts with version := v } }

/-- `Builder::header`: `HashMap::insert` of the pair. -/
def Builder.header (b : Builder) (key value : String) : Builder :=
  { b with parts := { b.parts with headers := insertHeader b.parts.headers key value } }

/-- `Builder::body`. -/
def Builder.setBody (b : Builder) (body : List Nat) : Builder :=
  { b with body := body }

/-- The finalized `Request` value `build()` assembles. -/
structure Request where
  method : Method
  uri : Uri
  headers : Headers
  body : List Nat
deriving Repr, DecidableEq

/-- Sites at which `Builder::build` can panic: the `.unwrap()` on
`uri.host()` (line 103) when the URI has no host component. -/
inductive PanicKind where
  | hostUnwrap
deriving Repr, DecidableEq

/-- `Builder::build` (request.rs lines 99-122). With credentials it unwraps
the URI host (panicking if absent), signs a token for
`host ++ path_and_query`, and inserts the `User-Agent`, `Content-Type` and
`Authorization` headers in that order before assembling the request; without
credentials it assembles the parts unchanged. -/
def Builder.build (env : CryptoEnv) (now : Nat) (nonce : String) (b : Builder) :
    Except PanicKind Request :=
  match b.auth with
  | some (key, secret) =>
    match b.parts.uri.host with
    | none => Except.error PanicKind.hostUnwrap
    | some h =>
      let path := h ++ b.parts.uri.path_and_query
      let tok := token env now nonce key secret b.parts.method path
      let bearer := "Bearer " ++ tok
      let hs :=
        insertHeader
          (insertHeader (insertHeader b.parts.headers "User-Agent" USER_AGENT)
            "Content-Type" "text/plain; charset=utf-8")
          "Authorization" bearer
      Except.ok { method := b.parts.method, uri := b.parts.uri, headers := hs, body := b.body }
  | none =>
      Except.ok { method := b.parts.method, uri := b.parts.uri,
                  headers := b.parts.headers, body := b.body }

/-- The two `CBError` variants produced by the decoding logic in
`private.rs`: `Coinbase` carries the decoded structured error envelope,
`Serde` carries the (success-shape) parse error. -/
inductive CBError (ε : Type) where
  | Coinbase (e : ε)
  | Serde (e : String)
deriving Repr, DecidableEq

/-- Behaviour of `serde_json::from_slice` at the two call sites of a
response handler: decoding the body as the success shape `α` and as the
structured error envelope `ε`. -/
structure SerdeEnv (α ε : Type) where
  fromSliceSuccess : List Nat → Except String α
  fromSliceError : List Nat → Except String ε

/-- The response-decoding match of `Private::list_payment_methods`
(private.rs lines 90-96) and `Private::withdrawals` (lines 132-138): try the
success shape, then the error envelope, and only then report the original
success-shape parse error. Total: a malformed body yields `Except.error`,
never a panic. -/
def decodeResponse {α ε : Type} (env : SerdeEnv α ε) (body : List Nat) :
    Except (CBError ε) α :=
  match env.fromSliceSuccess body with
  | Except.ok v => Except.ok v
  | Except.error e =>
    match env.fromSliceError body with
    | Except.ok coinbase_err => Except.error (CBError.Coinbase coinbase_err)
    | Except.error _ => Except.error (CBError.Serde e)

/-- One page envelope: items plus the `pagination.next_starting_after` cursor. -/
structure Page (α : Type) where
  items : List α
  next_starting_after : Option String
deriving Repr, DecidableEq

/-- Modelled from the spec: `Public::get_stream` (src/public.rs) is not in
the tree — only its callers in `private.rs` are — so the pagination stream
is taken from spec section 4.5: per pulled element it issues one page
request, yields `Ok(items)` and advances to the next cursor, stops after a
page without `next_starting_after`, and on a decode error yields that error
and stops. The argument lists the successive page-request outcomes of the
interaction; the result is the emitted element sequence paired with the
number of page requests issued. -/
def get_stream {α ε : Type} : List (Except (CBError ε) (Page α)) →
    List (Except (CBError ε) (List α)) × Nat
  | [] => ([], 0)
  | Except.error e :: _ => ([Except.error e], 1)
  | Except.ok p :: rest =>
    match p.next_starting_after with
    | none => ([Except.ok p.items], 1)
    | some _ =>
      let out := get_stream rest
      (Except.ok p.items :: out.1, out.2 + 1)

/-- A finite page interaction: every page except the last carries a
continuation cursor and the last page carries none. -/
def chainTerminated {α : Type} : List (Page α) → Prop
  | [] => True
  | [p] => p.next_starting_after = none
  | p :: q :: rest => (p.next_starting_after).isSome = true ∧ chainTerminated (q :: rest)

/-! Concrete library environments and inputs used by witnesses. -/

/-- Library behaviour in which every stage of the crypto pipeline succeeds. -/
def envOk : CryptoEnv :=
  { fromSec1Pem := fun _ => Except.ok [1, 2, 3],
    es256FromBytesOk := fun _ => Except.ok (),
    signRaw := fun _ _ => Except.ok [9],
    compact := fun _ => "jwt" }

/-- Library behaviour in which PEM parsing fails (e.g. the secret is not a
PEM document), as `from_sec1_pem` does on such input. -/
def envPemFails : CryptoEnv :=
  { fromSec1Pem := fun _ => Except.error "pem parse error",
    es256FromBytesOk := fun _ => Except.ok (),
    signRaw := fun _ _ => Except.ok [9],
    compact := fun _ => "jwt" }

/-- An authenticated builder whose URI has a host. -/
def bAuthHost : Builder :=
  (Builder.new_with_auth "k" "s").uri
    { host := some "example.com", path := "/v2/accounts", query := none }

/-- An authenticated builder with a host whose caller pre-set the
`User-Agent` header. -/
def bPresetUA : Builder :=
  (((Builder.new_with_auth "k" "s").uri
      { host := some "example.com", path := "/", query := none }).header
    "User-Agent" "mine")

/-- An authenticated builder with a host and a caller-set custom header. -/
def bPresetTwo : Builder :=
  (((Builder.new_with_auth "k" "s").uri
      { host := some "example.com", path := "/", query := none }).header
    "X-Request-Id" "42")

/-- A URI with host, path and query, as the account endpoints build. -/
def uriExample : Uri :=
  { host := some "api.coinbase.com", path := "/v2/accounts", query := some "limit=100" }

/-- The token `envOk` produces for key `key-1`, secret `PEM`, method `GET`
and target `api.coinbase.com/v2/accounts?limit=100` at time 5 with nonce `n1`. -/
def jwtExample : Jwt :=
  { header := { alg := "ES256", kid := some "key-1" },
    claims := { issued_at := 5, expires_at := 125, issuer := some "cdp",
                subject := some "key-1", nonce := some "n1",
                custom := { uri := "GET api.coinbase.com/v2/accounts?limit=100" } },
    signature := [9] }

/-- Serde behaviour for a handler whose success shape only decodes the body
`[123]`; every other body fails as truncated JSON, and nothing decodes as
the error envelope. -/
def serdeEnvExample : SerdeEnv Nat String :=
  { fromSliceSuccess := fun b =>
      if b = [123] then Except.ok 7 else Except.error "unexpected end of JSON input",
    fromSliceError := fun _ => Except.error "not an error envelope" }

/-- Two pages ending in a cursor-less envelope, as in spec scenario 7. -/
def pagesExample : List (Page Nat) :=
  [{ items := [1, 2], next_starting_after := some "X" },
   { items := [3], next_starting_after := none }]

/-! Header-map lemmas. -/

/-- Looking up the key just inserted returns the inserted value. -/
theorem getHeader_insertHeader_same (hs : Headers) (k v : String) :
    getHeader (insertHeader hs k v) k = some v := by
  induction hs with
  | nil => simp [insertHeader, getHeader]
  | cons p hs ih =>
    by_cases h : p.1 = k
    · simp [insertHeader, h, ih]
    · simp [insertHeader, getHeader, h, ih]

/-- Inserting one key leaves the binding of every other key unchanged. -/
theorem getHeader_insertHeader_other (hs : Headers) (k v k' : String) (hne : k' ≠ k) :
    getHeader (insertHeader hs k v) k' = getHeader hs k' := by
  have hkk : ¬ (k = k') := fun hh => hne hh.symm
  induction hs with
  | nil => simp [insertHeader, getHeader, hkk]
  | cons p hs ih =>
    by_cases h : p.1 = k
    · simp [insertHeader, h, getHeader, hkk, ih]
    · simp [insertHeader, h, getHeader, ih]

/-! Claim theorems. -/

/-- C1: the claim requires the token signer to return `SignError::KeyLoad`
when loading the PEM key fails and `SignError::SigningFailed` when signing
fails, never substituting a default value for the token. Evaluating
`Builder::token` at a secret the PEM parser rejects shows the source
instead swallows the failure and returns the empty-string default, so the
code contradicts the stated (and spec-flagged) intent. -/
theorem token_bad_pem_returns_empty_default :
    token envPemFails 0 "nonce0" "org/key-1" "this is not a pem" "GET"
      "api.coinbase.com/v2/accounts" = "" := rfl

/-- C2 counterexample: on the concrete authenticated builder whose default
URI `/` has no host, `build` does not produce a `MissingAuthority` typed
error — no such error exists in the source — but hits the `.unwrap()` on
`uri.host()`, i.e. the code panics. -/
theorem build_no_host_panics_concrete :
    Builder.build envOk 0 "n0" (Builder.new_with_auth "key" "secret") =
      Except.error PanicKind.hostUnwrap := rfl

/-- C2 amended: for every authenticated builder whose URI has no host
component, `build` raises a raw panic at the `uri.host().unwrap()` call;
there is no typed `RequestError::MissingAuthority`. -/
theorem build_no_host_panics (env : CryptoEnv) (now : Nat) (nonce : String) (b : Builder)
    (key secret : String) (hauth : b.auth = some (key, secret))
    (hhost : b.parts.uri.host = none) :
    Builder.build env now nonce b = Except.error PanicKind.hostUnwrap := by
  simp [Builder.build, hauth, hhost]

/-- Witness for the amended C2 theorem at a concrete builder. -/
theorem build_no_host_panics_witness :
    Builder.build envPemFails 1 "n1" (Builder.new_with_auth "k2" "s2") =
      Except.error PanicKind.hostUnwrap :=
  build_no_host_panics envPemFails 1 "n1" (Builder.new_with_auth "k2" "s2") "k2" "s2" rfl rfl

/-- C4: whenever the signing pipeline succeeds, the produced token's header
carries key id equal to the supplied key name (and algorithm `ES256`), and
its payload's signed-URI custom claim is exactly the method, one space,
then the host concatenated with the path and optional query. -/
theorem tokenJwt_kid_and_uri_claim (env : CryptoEnv) (now : Nat)
    (nonce key_name secret : String) (method : Method) (host : String) (u : Uri) (jwt : Jwt)
    (hok : tokenJwt env now nonce key_name secret method (host ++ u.path_and_query) =
      Except.ok jwt) :
    jwt.header.kid = some key_name ∧ jwt.header.alg = "ES256" ∧
    jwt.claims.custom.uri = method ++ " " ++ (host ++ u.path_and_query) := by
  cases hb : env.loadSecretKeyBytes secret with
  | error e => simp [tokenJwt, hb] at hok
  | ok bytes =>
    cases hk : env.es256FromBytes bytes with
    | error e => simp [tokenJwt, hb, hk] at hok
    | ok kp =>
      cases hs : env.signRaw (kp.with_key_id key_name).key
          ((((Claims.with_custom_claims
                { uri := method ++ " " ++ (host ++ u.path_and_query) } 120 now).with_issuer
              "cdp").with_subject key_name).create_nonce nonce) with
      | error e => simp [tokenJwt, CryptoEnv.sign, hb, hk, hs] at hok
      | ok sig =>
        simp only [tokenJwt, CryptoEnv.sign, hb, hk, hs, Except.ok.injEq] at hok
        subst hok
        simp [ES256KeyPair.with_key_id, Claims.with_custom_claims, Claims.with_issuer,
              Claims.with_subject, Claims.create_nonce]

/-- Witness for C4 at the all-success library behaviour `envOk`. -/
theorem tokenJwt_kid_and_uri_claim_witness :
    jwtExample.header.kid = some "key-1" ∧ jwtExample.header.alg = "ES256" ∧
    jwtExample.claims.custom.uri =
      "GET" ++ " " ++ ("api.coinbase.com" ++ uriExample.path_and_query) :=
  tokenJwt_kid_and_uri_claim envOk 5 "n1" "key-1" "PEM" "GET" "api.coinbase.com"
    uriExample jwtExample rfl

/-- C6: every successfully signed token carries issuer `cdp`, subject equal
to the supplied key name, and an expiry exactly 120 seconds after its issue
time; the window is the fixed constant 120 for all inputs. -/
theorem tokenJwt_issuer_subject_expiry (env : CryptoEnv) (now : Nat)
    (nonce key_name secret : String) (method : Method) (path : String) (jwt : Jwt)
    (hok : tokenJwt env now nonce key_name secret method path = Except.ok jwt) :
    jwt.claims.issuer = some "cdp" ∧ jwt.claims.subject = some key_name ∧
    jwt.claims.issued_at = now ∧
    jwt.claims.expires_at = jwt.claims.issued_at + 120 := by
  cases hb : env.loadSecretKeyBytes secret with
  | error e => simp [tokenJwt, hb] at hok
  | ok bytes =>
    cases hk : env.es256FromBytes bytes with
    | error e => simp [tokenJwt, hb, hk] at hok
    | ok kp =>
      cases hs : env.signRaw (kp.with_key_id key_name).key
          ((((Claims.with_custom_claims
                { uri := method ++ " " ++ path } 120 now).with_issuer
              "cdp").with_subject key_name).create_nonce nonce) with
      | error e => simp [tokenJwt, CryptoEnv.sign, hb, hk, hs] at hok
      | ok sig =>
        simp only [tokenJwt, CryptoEnv.sign, hb, hk, hs, Except.ok.injEq] at hok
        subst hok
        simp [Claims.with_custom_claims, Claims.with_issuer, Claims.with_subject,
              Claims.create_nonce]

/-- Witness for C6 at the all-success library behaviour `envOk`. -/
theorem tokenJwt_issuer_subject_expiry_witness :
    jwtExample.claims.issuer = some "cdp" ∧ jwtExample.claims.subject = some "key-1" ∧
    jwtExample.claims.issued_at = 5 ∧
    jwtExample.claims.expires_at = jwtExample.claims.issued_at + 120 :=
  tokenJwt_issuer_subject_expiry envOk 5 "n1" "key-1" "PEM" "GET"
    "api.coinbase.com/v2/accounts?limit=100" jwtExample rfl

/-- C5: the response decoding of `list_payment_methods` and `withdrawals`
tries the success page shape first; if that fails it tries the structured
error envelope and on success returns the decoded error as
`CBError.Coinbase` (the remote-error variant); only if both fail does it
return `CBError.Serde` carrying the original success-shape decode failure.
The function is total, so a malformed (e.g. truncated) body yields an
`Except.error` value, never a panic. -/
theorem decodeResponse_tries_success_then_error {α ε : Type} (env : SerdeEnv α ε)
    (body : List Nat) :
    (∀ v, env.fromSliceSuccess body = Except.ok v →
       decodeResponse env body = Except.ok v) ∧
    (∀ e ce, env.fromSliceSuccess body = Except.error e →
       env.fromSliceError body = Except.ok ce →
       decodeResponse env body = Except.error (CBError.Coinbase ce)) ∧
    (∀ e e2, env.fromSliceSuccess body = Except.error e →
       env.fromSliceError body = Except.error e2 →
       decodeResponse env body = Except.error (CBError.Serde e)) := by
  refine ⟨?_, ?_, ?_⟩ <;> intros <;> simp [decodeResponse, *]

/-- Witness for C5: a truncated JSON body decodes as neither shape and
yields the malformed-response error carrying the original parse failure. -/
theorem decodeResponse_tries_success_then_error_witness :
    decodeResponse serdeEnvExample [1] =
      Except.error (CBError.Serde "unexpected end of JSON input") :=
  (decodeResponse_tries_success_then_error serdeEnvExample [1]).2.2
    "unexpected end of JSON input" "not an error envelope" rfl rfl

/-- C8: on an authenticated builder whose URI has a host, `build` produces
a request containing the `Authorization`, `User-Agent` and `Content-Type`
headers; on an unauthenticated builder the finalized headers are exactly
the builder's, so none of the three is present unless the caller set it. -/
theorem build_injects_or_leaves_headers (env : CryptoEnv) (now : Nat) (nonce : String)
    (b : Builder) :
    (∀ key secret h, b.auth = some (key, secret) → b.parts.uri.host = some h →
       ∃ r, Builder.build env now nonce b = Except.ok r ∧
         getHeader r.headers "Authorization" =
           some ("Bearer " ++
             token env now nonce key secret b.parts.method (h ++ b.parts.uri.path_and_query)) ∧
         getHeader r.headers "User-Agent" = some USER_AGENT ∧
         getHeader r.headers "Content-Type" = some "text/plain; charset=utf-8") ∧
    (b.auth = none →
       ∃ r, Builder.build env now nonce b = Except.ok r ∧
         getHeader r.headers "Authorization" = getHeader b.parts.headers "Authorization" ∧
         getHeader r.headers "User-Agent" = getHeader b.parts.headers "User-Agent" ∧
         getHeader r.headers "Content-Type" = getHeader b.parts.headers "Content-Type") := by
  constructor
  · intro key secret h hauth hhost
    simp only [Builder.build, hauth, hhost]
    refine ⟨_, rfl, ?_, ?_, ?_⟩
    · exact getHeader_insertHeader_same _ _ _
    · rw [getHeader_insertHeader_other _ _ _ _ (by decide),
          getHeader_insertHeader_other _ _ _ _ (by decide),
          getHeader_insertHeader_same]
    · rw [getHeader_insertHeader_other _ _ _ _ (by decide),
          getHeader_insertHeader_same]
  · intro hauth
    simp only [Builder.build, hauth]
    exact ⟨_, rfl, rfl, rfl, rfl⟩

/-- Witness for C8: the authenticated builder `bAuthHost` and the
unauthenticated `Builder.new`. -/
theorem build_injects_or_leaves_headers_witness :
    (∃ r, Builder.build envOk 0 "n" bAuthHost = Except.ok r ∧
       getHeader r.headers "Authorization" =
         some ("Bearer " ++ token envOk 0 "n" "k" "s" bAuthHost.parts.method
           ("example.com" ++ bAuthHost.parts.uri.path_and_query)) ∧
       getHeader r.headers "User-Agent" = some USER_AGENT ∧
       getHeader r.headers "Content-Type" = some "text/plain; charset=utf-8") ∧
    (∃ r, Builder.build envOk 0 "n" Builder.new = Except.ok r ∧
       getHeader r.headers "Authorization" = getHeader Builder.new.parts.headers "Authorization" ∧
       getHeader r.headers "User-Agent" = getHeader Builder.new.parts.headers "User-Agent" ∧
       getHeader r.headers "Content-Type" = getHeader Builder.new.parts.headers "Content-Type") :=
  ⟨(build_injects_or_leaves_headers envOk 0 "n" bAuthHost).1 "k" "s" "example.com" rfl rfl,
   (build_injects_or_leaves_headers envOk 0 "n" Builder.new).2 rfl⟩

/-- C9 counterexample: the caller pre-set `User-Agent: mine` on the
authenticated builder `bPresetUA`; the finalized request no longer contains
that pair — the injected fixed `User-Agent` replaced it — refuting the
claim that every previously set header key/value pair is still present. -/
theorem build_replaces_preset_user_agent :
    ∃ r, Builder.build envOk 0 "n" bPresetUA = Except.ok r ∧
      getHeader bPresetUA.parts.headers "User-Agent" = some "mine" ∧
      getHeader r.headers "User-Agent" = some USER_AGENT ∧
      ("User-Agent", "mine") ∉ r.headers := by
  refine ⟨_, rfl, ?_, ?_, ?_⟩ <;> decide

/-- C9 amended: the injected headers overwrite any caller-set value of the
keys `User-Agent`, `Content-Type` and `Authorization`, and every caller-set
header whose key differs from those three keeps its value in the finalized
request. -/
theorem build_preserves_other_headers (env : CryptoEnv) (now : Nat) (nonce : String)
    (b : Builder) (key secret h k : String)
    (hauth : b.auth = some (key, secret)) (hhost : b.parts.uri.host = some h)
    (h1 : k ≠ "User-Agent") (h2 : k ≠ "Content-Type") (h3 : k ≠ "Authorization") :
    ∃ r, Builder.build env now nonce b = Except.ok r ∧
      getHeader r.headers "User-Agent" = some USER_AGENT ∧
      getHeader r.headers "Content-Type" = some "text/plain; charset=utf-8" ∧
      getHeader r.headers k = getHeader b.parts.headers k := by
  simp only [Builder.build, hauth, hhost]
  refine ⟨_, rfl, ?_, ?_, ?_⟩
  · rw [getHeader_insertHeader_other _ _ _ _ (by decide),
        getHeader_insertHeader_other _ _ _ _ (by decide),
        getHeader_insertHeader_same]
  · rw [getHeader_insertHeader_other _ _ _ _ (by decide),
        getHeader_insertHeader_same]
  · rw [getHeader_insertHeader_other _ _ _ _ h3, getHeader_insertHeader_other _ _ _ _ h2,
        getHeader_insertHeader_other _ _ _ _ h1]

/-- Witness for the amended C9 theorem: the caller-set custom header
`X-Request-Id: 42` on `bPresetTwo` survives finalization. -/
theorem build_preserves_other_headers_witness :
    ∃ r, Builder.build envOk 0 "n" bPresetTwo = Except.ok r ∧
      getHeader r.headers "User-Agent" = some USER_AGENT ∧
      getHeader r.headers "Content-Type" = some "text/plain; charset=utf-8" ∧
      getHeader r.headers "X-Request-Id" = getHeader bPresetTwo.parts.headers "X-Request-Id" :=
  build_preserves_other_headers envOk 0 "n" bPresetTwo "k" "s" "example.com" "X-Request-Id"
    rfl rfl (by decide) (by decide) (by decide)

/-- C10: `Builder::token` is a total function; whenever any stage of the
pipeline fails (unparsable PEM, scalar bytes that form no ES256 key pair,
or a signing failure) it returns the empty string, and `build` then emits
the `Authorization` value `Bearer ` followed by the empty token. -/
theorem token_returns_empty_on_any_failure (env : CryptoEnv) (now : Nat)
    (nonce key_name secret : String) (method : Method) (path : String) :
    (∀ f, tokenJwt env now nonce key_name secret method path = Except.error f →
       token env now nonce key_name secret method path = "") ∧
    (∀ b h, b.auth = some (key_name, secret) → b.parts.uri.host = some h →
       token env now nonce key_name secret b.parts.method (h ++ b.parts.uri.path_and_query) = "" →
       ∃ r, Builder.build env now nonce b = Except.ok r ∧
         getHeader r.headers "Authorization" = some "Bearer ") := by
  constructor
  · intro f hf
    simp [token, hf]
  · intro b h hauth hhost htok
    simp only [Builder.build, hauth, hhost]
    refine ⟨_, rfl, ?_⟩
    rw [getHeader_insertHeader_same, htok]
    rfl

/-- Witness for C10: with a PEM-rejecting library behaviour, the token for
`bAuthHost` is empty and the built request carries `Authorization: Bearer `
with the empty token. -/
theorem token_returns_empty_on_any_failure_witness :
    token envPemFails 0 "n" "k" "s" "GET"
      ("example.com" ++ bAuthHost.parts.uri.path_and_query) = "" ∧
    ∃ r, Builder.build envPemFails 0 "n" bAuthHost = Except.ok r ∧
      getHeader r.headers "Authorization" = some "Bearer " :=
  ⟨(token_returns_empty_on_any_failure envPemFails 0 "n" "k" "s" "GET"
      ("example.com" ++ bAuthHost.parts.uri.path_and_query)).1
      (TokenFailure.keyLoad "pem parse error") rfl,
   (token_returns_empty_on_any_failure envPemFails 0 "n" "k" "s" "GET"
      ("example.com" ++ bAuthHost.parts.uri.path_and_query)).2
      bAuthHost "example.com" rfl rfl rfl⟩

/-- One step of the stream: a successfully decoded page with a continuation
cursor yields its items and one request, then the stream continues. -/
theorem get_stream_cons_some {α ε : Type} (p : Page α)
    (L : List (Except (CBError ε) (Page α))) (c : String)
    (hc : p.next_starting_after = some c) :
    get_stream (Except.ok p :: L) =
      (Except.ok p.items :: (get_stream L).1, (get_stream L).2 + 1) := by
  simp [get_stream, hc]

/-- C3: for a finite page interaction in which every page except the last
carries a continuation cursor and the last page's envelope has
`next_starting_after` absent, the stream yields exactly one `Ok` element
per page, in cursor order, and issues exactly one request per page — none
after the terminal page. Modelled from the spec (`get_stream`). -/
theorem get_stream_one_ok_per_page {α ε : Type} (pages : List (Page α))
    (hchain : chainTerminated pages) :
    get_stream (pages.map Except.ok : List (Except (CBError ε) (Page α))) =
      (pages.map (fun p => Except.ok p.items), pages.length) := by
  revert hchain
  induction pages with
  | nil => intro _; rfl
  | cons p rest ih =>
    intro hchain
    cases rest with
    | nil =>
      simp only [chainTerminated] at hchain
      simp [get_stream, hchain]
    | cons q rest2 =>
      simp only [chainTerminated] at hchain
      obtain ⟨h1, h2⟩ := hchain
      obtain ⟨c, hc⟩ := Option.isSome_iff_exists.mp h1
      rw [List.map_cons, get_stream_cons_some p _ c hc, ih h2]
      simp

/-- Witness for C3 at the two-page interaction `pagesExample`. -/
theorem get_stream_one_ok_per_page_witness :
    get_stream (pagesExample.map Except.ok : List (Except (CBError String) (Page Nat))) =
      (pagesExample.map (fun p => Except.ok p.items), pagesExample.length) :=
  get_stream_one_ok_per_page pagesExample ⟨rfl, rfl⟩
